import Mathlib

/-!
Formal model of the bachat recurring-transaction and ledger-consistency
engine (src/lib/inngest/function.ts, src/lib/actions/transaction.ts,
src/lib/zodSchemas.ts), with theorems settling the specified properties.

JavaScript `Date` values are modelled as integers counting milliseconds
since the Unix epoch (UTC).  The calendar arithmetic (`setDate`,
`setMonth`, `setFullYear`, `new Date(y, m, d)`) follows ECMA-262
`MakeDay`: out-of-range day or month components overflow into adjacent
months/years.  Civil-date conversions use the standard era-based
algorithm over Euclidean division (all divisors are positive, so
Euclidean and floor division agree).
-/

namespace JSDate

def msPerDay : Int := 86400000

/-- ECMA-262 `Day(t)`: the day number containing time value `t`. -/
def day (t : Int) : Int := Int.ediv t msPerDay

/-- ECMA-262 `TimeWithinDay(t)`. -/
def timeWithinDay (t : Int) : Int := t - day t * msPerDay

/-- Civil date `(year, month 1..12, day 1..31)` of a day number
(days since 1970-01-01). -/
def civilFromDays (z : Int) : Int × Int × Int :=
  let z := z + 719468
  let era := Int.ediv z 146097
  let doe := z - era * 146097
  let yoe := Int.ediv (doe - Int.ediv doe 1460 + Int.ediv doe 36524 - Int.ediv doe 146096) 365
  let y := yoe + era * 400
  let doy := doe - (365 * yoe + Int.ediv yoe 4 - Int.ediv yoe 100)
  let mp := Int.ediv (5 * doy + 2) 153
  let d := doy - Int.ediv (153 * mp + 2) 5 + 1
  let m := mp + (if mp < 10 then 3 else -9)
  (if m ≤ 2 then y + 1 else y, m, d)

/-- Day number of the civil date `(y, m 1..12, d)`. -/
def daysFromCivil (y m d : Int) : Int :=
  let y := if m ≤ 2 then y - 1 else y
  let era := Int.ediv y 400
  let yoe := y - era * 400
  let mp := Int.emod (m + 9) 12
  let doy := Int.ediv (153 * mp + 2) 5 + d - 1
  let doe := yoe * 365 + Int.ediv yoe 4 - Int.ediv yoe 100 + doy
  era * 146097 + doe - 719468

/-- ECMA-262 `MakeDay(year, month, date)` with 0-based `month`; month and
day components outside their ranges overflow into adjacent months/years. -/
def makeDay (y m d : Int) : Int :=
  daysFromCivil (y + Int.ediv m 12) (Int.emod m 12 + 1) 1 + (d - 1)

def getFullYear (t : Int) : Int := (civilFromDays (day t)).1

/-- 0-based month, as JavaScript `Date.prototype.getMonth`. -/
def getMonth (t : Int) : Int := (civilFromDays (day t)).2.1 - 1

/-- 1-based day of month, as JavaScript `Date.prototype.getDate`. -/
def getDate (t : Int) : Int := (civilFromDays (day t)).2.2

/-- `Date.prototype.setDate`: replace the day-of-month, keeping the time
of day; overflowing days roll into following months. -/
def setDate (t d : Int) : Int :=
  makeDay (getFullYear t) (getMonth t) d * msPerDay + timeWithinDay t

/-- `Date.prototype.setMonth`: replace the (0-based) month, keeping the
day-of-month and time of day; an invalid resulting day overflows. -/
def setMonth (t m : Int) : Int :=
  makeDay (getFullYear t) m (getDate t) * msPerDay + timeWithinDay t

/-- `Date.prototype.setFullYear`, keeping month, day and time of day;
Feb 29 in a non-leap target year overflows to Mar 1. -/
def setFullYear (t y : Int) : Int :=
  makeDay y (getMonth t) (getDate t) * msPerDay + timeWithinDay t

/-- Time value of the UTC instant `y-m-d hh:mm` (month 1-based). -/
def mkTime (y m d hh mm : Int) : Int :=
  daysFromCivil y m d * msPerDay + (hh * 60 + mm) * 60000

end JSDate

/-! ## Data model (src/types/transaction.ts, src/types/account.ts, src/types/budget.ts) -/

inductive TransactionType where
  | INCOME
  | EXPENSE
deriving DecidableEq

inductive TransactionStatus where
  | PENDING
  | COMPLETED
  | FAILED
deriving DecidableEq

inductive RecurringInterval where
  | DAILY
  | WEEKLY
  | MONTHLY
  | YEARLY
deriving DecidableEq

/-- A Transaction row.  `amount` is the positive fixed-point decimal,
modelled as a rational; dates are JS time values (ms since epoch).
`recurringInterval`, `nextRecurringDate` and `lastProcessed` are nullable
columns, modelled as `Option`. -/
structure Transaction where
  id : String
  userId : String
  accountId : String
  type : TransactionType
  amount : ℚ
  description : Option String
  date : Int
  category : String
  status : TransactionStatus
  isRecurring : Bool
  recurringInterval : Option RecurringInterval
  nextRecurringDate : Option Int
  lastProcessed : Option Int
deriving DecidableEq

structure Account where
  id : String
  userId : String
  name : String
  balance : ℚ
  isDefault : Bool
deriving DecidableEq

structure Budget where
  id : String
  userId : String
  amount : ℚ
  lastAlertSent : Option Int
deriving DecidableEq

/-- Modelled from the spec: the Prisma schema (not included in the
sources) supplies the default `status` for Transaction rows created
without an explicit status; per the spec (§4.4), occurrences created by
the recurring processor have status COMPLETED. -/
def defaultTransactionStatus : TransactionStatus := .COMPLETED

/-! ## Recurrence calculator and due predicate
(src/lib/inngest/function.ts, `calculateNextRecurringDate`,
`isTransactionDue`, `isNewMonth`) -/

/-- `calculateNextRecurringDate(date, interval)`.  The JS `switch` has no
`default` case and its argument arrives through an unchecked cast
(`transaction.recurringInterval as RecurringInterval`), so a null /
unrecognized interval matches no case and the copied date is returned
unchanged; the parameter is therefore modelled as `Option`. -/
def calculateNextRecurringDate (date : Int) (interval : Option RecurringInterval) : Int :=
  match interval with
  | some .DAILY => JSDate.setDate date (JSDate.getDate date + 1)
  | some .WEEKLY => JSDate.setDate date (JSDate.getDate date + 7)
  | some .MONTHLY => JSDate.setMonth date (JSDate.getMonth date + 1)
  | some .YEARLY => JSDate.setFullYear date (JSDate.getFullYear date + 1)
  | none => date

/-- `isTransactionDue(transaction)`: due when `lastProcessed` is absent,
otherwise when `nextRecurringDate ?? today` is at or before `today`. -/
def isTransactionDue (t : Transaction) (today : Int) : Bool :=
  match t.lastProcessed with
  | none => true
  | some _ => decide (t.nextRecurringDate.getD today ≤ today)

/-- `isNewMonth(lastAlertDate, currentDate)`: true when the two dates lie
in different calendar months or different years. -/
def isNewMonth (lastAlertDate currentDate : Int) : Bool :=
  decide (JSDate.getMonth lastAlertDate ≠ JSDate.getMonth currentDate) ||
    decide (JSDate.getFullYear lastAlertDate ≠ JSDate.getFullYear currentDate)

/-! ## Throttled processor
(src/lib/inngest/function.ts, `processRecurringTransaction`) -/

/-- The ledger store visible to the processor. -/
structure DB where
  transactions : List Transaction
  accounts : List Account
deriving DecidableEq

inductive ProcessOutcome where
  /-- The event payload was missing `transactionId` or `userId`; the
  handler returns an error object without touching the store. -/
  | invalidEvent
  /-- The transaction was absent or no longer due; nothing was mutated. -/
  | noop
  /-- The atomic occurrence-creation step ran. -/
  | processed
deriving DecidableEq

/-- The signed balance change applied by the processor:
`transaction.type === "EXPENSE" ? -amount : amount`. -/
def balanceChange (t : Transaction) : ℚ :=
  if t.type = .EXPENSE then -t.amount else t.amount

/-- The occurrence row created by the processor: clones
type/amount/category/account/user, dated now, description suffixed with
" (Recurring)" (a null description prints as "null" in the JS template
string), `isRecurring: false`; status and the recurrence columns are not
supplied and take their defaults. -/
def occurrenceOf (t : Transaction) (now : Int) (newId : String) : Transaction :=
  { id := newId
    userId := t.userId
    accountId := t.accountId
    type := t.type
    amount := t.amount
    description := some ((t.description.getD "null") ++ " (Recurring)")
    date := now
    category := t.category
    status := defaultTransactionStatus
    isRecurring := false
    recurringInterval := none
    nextRecurringDate := none
    lastProcessed := none }

/-- The in-place update of the original transaction performed in the
atomic step: `lastProcessed` set to now and `nextRecurringDate` advanced
by the recurrence calculator. -/
def advanceOriginal (t : Transaction) (now : Int) : Transaction :=
  { t with lastProcessed := some now,
           nextRecurringDate := some (calculateNextRecurringDate now t.recurringInterval) }

/-- One delivery of a `transaction.recurring.process` work item.
Validates the event payload (JS falsiness: an absent or empty-string id
is rejected), re-fetches the transaction by id and user, checks the due
predicate, and — inside a single atomic store transaction — creates the
occurrence row, increments the account balance, and reschedules the
original.  `newId` stands for the id the store assigns to the new row. -/
def processRecurringTransaction (db : DB) (eventTransactionId eventUserId : Option String)
    (now : Int) (newId : String) : DB × ProcessOutcome :=
  match eventTransactionId, eventUserId with
  | some txId, some userId =>
    if txId = "" ∨ userId = "" then (db, .invalidEvent)
    else
      match db.transactions.find? (fun t => t.id == txId && t.userId == userId) with
      | none => (db, .noop)
      | some transaction =>
        if isTransactionDue transaction now then
          ({ transactions :=
              (db.transactions.map (fun t =>
                if t.id == transaction.id then advanceOriginal t now else t)) ++
                [occurrenceOf transaction now newId]
             accounts :=
              db.accounts.map (fun a =>
                if a.id == transaction.accountId then
                  { a with balance := a.balance + balanceChange transaction }
                else a) },
           .processed)
        else (db, .noop)
  | _, _ => (db, .invalidEvent)

/-! Sample concrete store contents, used to instantiate the theorems. -/

def sampleNow : Int := JSDate.mkTime 2024 6 15 10 0

def sampleTx : Transaction :=
  { id := "t1", userId := "u1", accountId := "a1", type := .EXPENSE, amount := 50,
    description := some "Netflix", date := JSDate.mkTime 2024 5 15 10 0,
    category := "entertainment", status := .COMPLETED, isRecurring := true,
    recurringInterval := some .MONTHLY,
    nextRecurringDate := some (JSDate.mkTime 2024 6 15 10 0),
    lastProcessed := some (JSDate.mkTime 2024 5 15 10 0) }

def sampleAccount : Account :=
  { id := "a1", userId := "u1", name := "Main", balance := 1000, isDefault := true }

def sampleDB : DB := { transactions := [sampleTx], accounts := [sampleAccount] }

def processedTx : Transaction :=
  { sampleTx with lastProcessed := some sampleNow,
                  nextRecurringDate := some (JSDate.mkTime 2024 7 15 10 0) }

def processedDB : DB := { transactions := [processedTx], accounts := [sampleAccount] }

def nullIntervalTx : Transaction := { sampleTx with recurringInterval := none }

def nullIntervalDB : DB := { transactions := [nullIntervalTx], accounts := [sampleAccount] }

/-! ## Budget alert evaluator
(src/lib/inngest/function.ts, `checkBudgetAlerts`) -/

/-- The shape of the Prisma `transaction.aggregate` where-clause used by
the evaluator; a `none` field places no constraint. -/
structure TxWhere where
  userId : Option String
  accountId : Option String
  type : Option TransactionType
  dateGte : Option Int
  dateLte : Option Int

def txMatches (w : TxWhere) (t : Transaction) : Bool :=
  (match w.userId with | none => true | some u => t.userId == u) &&
  (match w.accountId with | none => true | some a => t.accountId == a) &&
  (match w.type with | none => true | some ty => decide (t.type = ty)) &&
  (match w.dateGte with | none => true | some s => decide (s ≤ t.date)) &&
  (match w.dateLte with | none => true | some e => decide (t.date ≤ e))

/-- `db.transaction.aggregate(... _sum: amount)` over the rows matching
the where-clause; an empty match sums to 0, as does the JS
`?.toNumber() || 0` fallback. -/
def aggregateSumAmount (w : TxWhere) (txs : List Transaction) : ℚ :=
  ((txs.filter (txMatches w)).map Transaction.amount).sum

/-- The evaluator's expense total: EXPENSE rows of the budget's user on
the default account with `date ≥ startDate`, where
`startDate = new Date(); startDate.setDate(1)` — the first of the
current month at the *current time of day*.  No upper date bound is
applied. -/
def budgetTotalExpenses (b : Budget) (defaultAccount : Account)
    (txs : List Transaction) (now : Int) : ℚ :=
  aggregateSumAmount
    { userId := some b.userId, accountId := some defaultAccount.id,
      type := some .EXPENSE, dateGte := some (JSDate.setDate now 1), dateLte := none } txs

/-- `percentageUsed = (totalExpenses / budgetAmount) * 100`. -/
def budgetPercentageUsed (b : Budget) (defaultAccount : Account)
    (txs : List Transaction) (now : Int) : ℚ :=
  budgetTotalExpenses b defaultAccount txs now / b.amount * 100

structure BudgetCheckResult where
  alertSent : Bool
  budget : Budget
deriving DecidableEq

/-- One evaluator pass over a single budget with its user's default
account: sends an alert and stamps `lastAlertSent = now` exactly when
`percentageUsed >= 80` and (`lastAlertSent` absent or `isNewMonth`). -/
def checkBudgetStep (b : Budget) (defaultAccount : Account)
    (txs : List Transaction) (now : Int) : BudgetCheckResult :=
  if decide (80 ≤ budgetPercentageUsed b defaultAccount txs now) &&
      (match b.lastAlertSent with
       | none => true
       | some la => isNewMonth la now) then
    { alertSent := true, budget := { b with lastAlertSent := some now } }
  else
    { alertSent := false, budget := b }

/-- One step of a sequence of evaluator runs: thread the stored budget
and count the alert if one was sent. -/
def budgetStepFold (defaultAccount : Account) (st : Budget × Nat)
    (r : Int × List Transaction) : Budget × Nat :=
  let res := checkBudgetStep st.1 defaultAccount r.2 r.1
  (res.budget, st.2 + (if res.alertSent then 1 else 0))

/-- A sequence of evaluator runs (each with its run time and the
transactions visible at that run) threaded through the stored budget,
counting the alerts sent. -/
def runBudgetChecks (b : Budget) (defaultAccount : Account)
    (runs : List (Int × List Transaction)) : Budget × Nat :=
  runs.foldl (budgetStepFold defaultAccount) (b, 0)

/-- A budget whose last alert was sent in the previous calendar month. -/
def alertBudgetPrev : Budget :=
  { id := "b1", userId := "u1", amount := 100,
    lastAlertSent := some (JSDate.mkTime 2024 5 10 0 0) }

/-- Current-month expenses worth 85% of the 100 budget. -/
def alertTxs : List Transaction :=
  [{ id := "e1", userId := "u1", accountId := "a1", type := .EXPENSE, amount := 85,
     description := none, date := JSDate.mkTime 2024 6 10 12 0, category := "food",
     status := .COMPLETED, isRecurring := false, recurringInterval := none,
     nextRecurringDate := none, lastProcessed := none }]

/-- An evaluation instant in the middle of a month, in the afternoon. -/
def c7Now : Int := JSDate.mkTime 2024 1 15 14 30

def c7Budget : Budget := { id := "b7", userId := "u1", amount := 100, lastAlertSent := none }

/-- An expense on the default account on the morning of the 1st — inside
the claimed window, before the evaluator's time-of-day cutoff. -/
def c7TxEarly : Transaction :=
  { id := "x1", userId := "u1", accountId := "a1", type := .EXPENSE, amount := 10,
    description := none, date := JSDate.mkTime 2024 1 1 9 0, category := "food",
    status := .COMPLETED, isRecurring := false, recurringInterval := none,
    nextRecurringDate := none, lastProcessed := none }

/-- An expense dated after "now" — outside the claimed window. -/
def c7TxFuture : Transaction :=
  { id := "x2", userId := "u1", accountId := "a1", type := .EXPENSE, amount := 5,
    description := none, date := JSDate.mkTime 2024 2 20 0 0, category := "food",
    status := .COMPLETED, isRecurring := false, recurringInterval := none,
    nextRecurringDate := none, lastProcessed := none }

/-! ## Monthly report aggregator
(src/lib/inngest/function.ts, `getMonthlyStats`, `generateMonthlyReports`) -/

/-- The JS object-literal accumulator, a string-keyed insertion-ordered
mapping.  `byCategory` starts with five preset zero entries. -/
structure MonthlyStats where
  totalExpenses : ℚ
  totalIncome : ℚ
  byCategory : List (String × ℚ)
deriving DecidableEq

def initialMonthlyReportData : MonthlyStats :=
  { totalExpenses := 0
    totalIncome := 0
    byCategory :=
      [("housing", 0), ("groceries", 0), ("transportation", 0),
       ("entertainment", 0), ("utilities", 0)] }

/-- `stats.byCategory[category] = (stats.byCategory[category] || 0) + amount`:
an existing key is updated in place, a new key is appended. -/
def bumpCategory (m : List (String × ℚ)) (key : String) (amt : ℚ) : List (String × ℚ) :=
  if m.any (fun p => p.1 == key) then
    m.map (fun p => if p.1 == key then (p.1, p.2 + amt) else p)
  else m ++ [(key, amt)]

/-- The row filter of `getMonthlyStats`: the user's transactions dated
within `[new Date(y, m, 1), new Date(y, m+1, 0)]` (both at midnight). -/
def monthlySelection (userId : String) (month : Int) (t : Transaction) : Bool :=
  let y := JSDate.getFullYear month
  let m := JSDate.getMonth month
  let startDate := JSDate.makeDay y m 1 * JSDate.msPerDay
  let endDate := JSDate.makeDay y (m + 1) 0 * JSDate.msPerDay
  t.userId == userId && decide (startDate ≤ t.date) && decide (t.date ≤ endDate)

/-- `getMonthlyStats(userId, month)`: reduce the selected rows, adding
EXPENSE amounts to `totalExpenses` and the per-category bucket (an empty
category string falls back to "uncategorized"), and all other amounts to
`totalIncome`. -/
def getMonthlyStats (userId : String) (month : Int) (txs : List Transaction) : MonthlyStats :=
  (txs.filter (monthlySelection userId month)).foldl
    (fun stats t =>
      if t.type = .EXPENSE then
        { stats with
            totalExpenses := stats.totalExpenses + t.amount
            byCategory :=
              bumpCategory stats.byCategory
                (if t.category == "" then "uncategorized" else t.category) t.amount }
      else { stats with totalIncome := stats.totalIncome + t.amount })
    initialMonthlyReportData

structure User where
  id : String
  name : String
  email : String
deriving DecidableEq

/-- The per-user output of `generateMonthlyReports`: the prior-month
stats, the month value they were computed for, and whether the
insight-generation collaborator was invoked (the code calls
`generateFinancialInsights(monthName, stats)` unconditionally before
sending the report email). -/
structure MonthlyReport where
  stats : MonthlyStats
  reportMonth : Int
  insightsRequested : Bool
deriving DecidableEq

/-- `lastMonth = new Date(); lastMonth.setMonth(lastMonth.getMonth() - 1)`. -/
def lastMonthOf (now : Int) : Int := JSDate.setMonth now (JSDate.getMonth now - 1)

def generateReportForUser (user : User) (txs : List Transaction) (now : Int) : MonthlyReport :=
  let lastMonth := lastMonthOf now
  let stats := getMonthlyStats user.id lastMonth txs
  { stats := stats, reportMonth := lastMonth, insightsRequested := true }

def sampleUser : User := { id := "u1", name := "Suraj", email := "u1@example.com" }

/-! ## Transaction create/update actions and form schema
(src/lib/actions/transaction.ts, src/lib/zodSchemas.ts) -/

/-- `TransactionFormData` (src/types/transaction.ts).  The form's string
`amount` is parsed to a number by the actions; it is modelled directly
as a rational. -/
structure TransactionFormData where
  type : TransactionType
  amount : ℚ
  description : Option String
  date : Int
  category : String
  accountId : String
  isRecurring : Bool
  recurringInterval : Option RecurringInterval
deriving DecidableEq

/-- `transactionSchema` (src/lib/zodSchemas.ts): the non-emptiness
checks plus the `superRefine` rule that a recurring transaction must
carry a `recurringInterval`.  Nothing constrains `recurringInterval`
when `isRecurring` is false. -/
def transactionSchemaValid (d : TransactionFormData) : Bool :=
  !(d.category == "") && !(d.accountId == "") &&
    !(d.isRecurring && d.recurringInterval.isNone)

/-- The `nextRecurringDate` both actions compute:
`data.isRecurring && data.recurringInterval ? calculateNextRecurringDate(data.date, data.recurringInterval) : null`. -/
def formNextRecurringDate (d : TransactionFormData) : Option Int :=
  match d.isRecurring, d.recurringInterval with
  | true, some i => some (calculateNextRecurringDate d.date (some i))
  | _, _ => none

/-- The row written by `createTransaction`: the form data spread into the
create (including `recurringInterval` as submitted), `nextRecurringDate`
computed, `status` and `lastProcessed` left to their column defaults. -/
def createTransactionRecord (d : TransactionFormData) (userId newId : String) : Transaction :=
  { id := newId
    userId := userId
    accountId := d.accountId
    type := d.type
    amount := d.amount
    description := d.description
    date := d.date
    category := d.category
    status := defaultTransactionStatus
    isRecurring := d.isRecurring
    recurringInterval := d.recurringInterval
    nextRecurringDate := formNextRecurringDate d
    lastProcessed := none }

/-- The row written by `updateTransaction`: the form data spread over the
original row; `status` and `lastProcessed` are not part of the form data
and keep their stored values. -/
def updateTransactionRecord (orig : Transaction) (d : TransactionFormData) : Transaction :=
  { orig with
      type := d.type
      amount := d.amount
      description := d.description
      date := d.date
      category := d.category
      accountId := d.accountId
      isRecurring := d.isRecurring
      recurringInterval := d.recurringInterval
      nextRecurringDate := formNextRecurringDate d }

/-- The documented data invariant: `nextRecurringDate` and
`recurringInterval` are present iff `isRecurring` is true, and a
non-recurring transaction never carries `lastProcessed`. -/
def recurringInvariant (t : Transaction) : Prop :=
  (t.isRecurring = true → t.nextRecurringDate.isSome ∧ t.recurringInterval.isSome) ∧
  (t.isRecurring = false →
    t.nextRecurringDate = none ∧ t.recurringInterval = none ∧ t.lastProcessed = none)

instance (t : Transaction) : Decidable (recurringInvariant t) := by
  unfold recurringInvariant; infer_instance

/-- A form submission that passes the zod schema: non-recurring, yet
carrying a `recurringInterval` (nothing in the schema forbids that). -/
def c8StaleIntervalForm : TransactionFormData :=
  { type := .EXPENSE, amount := 5, description := none, date := JSDate.mkTime 2024 6 15 10 0,
    category := "food", accountId := "a1", isRecurring := false,
    recurringInterval := some .DAILY }

/-- A schema-valid non-recurring form with no interval. -/
def c8PlainForm : TransactionFormData := { c8StaleIntervalForm with recurringInterval := none }

/-- A schema-valid recurring form. -/
def c8RecurringForm : TransactionFormData :=
  { c8StaleIntervalForm with isRecurring := true, recurringInterval := some .MONTHLY }

/-! ## Throttle
(src/lib/inngest/function.ts, the `throttle` option of
`processRecurringTransaction`) -/

structure ThrottleConfig where
  limit : Nat
  periodSec : Nat
  key : String
deriving DecidableEq

/-- The throttle declared on `process-recurring-transaction`:
`{ limit: 10, period: "1m", key: "event.data.userId" }`. -/
def processThrottleConfig : ThrottleConfig :=
  { limit := 10, periodSec := 60, key := "event.data.userId" }

/-- Modelled from the spec: the throttle executor itself lives in the
Inngest platform, not in this repository; the repository only declares
the configuration above.  Per the spec (§4.4, §8), items of one owning
user are processed at most `limit` per rolling `period`, the excess
deferred to later windows and none dropped.  For `n` items of a single
user dispatched together, the k-th item (0-based, arrival order) starts
at `(k / limit) * period` seconds; items of distinct users are scheduled
independently by their own copy of this schedule. -/
def throttleTimes (cfg : ThrottleConfig) (n : Nat) : List Nat :=
  (List.range n).map (fun k => k / cfg.limit * cfg.periodSec)

/-! ## Theorems -/

/-- The balance change, written as the spec phrases it (income case
first); agrees with the code's expense-first conditional. -/
theorem balanceChange_eq_signed (t : Transaction) :
    balanceChange t = if t.type = .INCOME then t.amount else -t.amount := by
  cases h : t.type <;> simp [balanceChange, h]

theorem civilFromDays_epoch : JSDate.civilFromDays 0 = (1970, 1, 1) := by decide

theorem daysFromCivil_epoch : JSDate.daysFromCivil 1970 1 1 = 0 := by decide

/-- Claim C1: processing a due work item performs, within the single
atomic store transaction, exactly these mutations: one new transaction
appended cloning type/amount/category/account/user, dated now,
non-recurring, status COMPLETED; the owning account's balance changed by
+amount for INCOME and −amount for EXPENSE (other accounts untouched);
and the original transaction's `lastProcessed` set to now and
`nextRecurringDate` set to the recurrence calculator applied to
(now, interval).  The conclusion describes the one post-state returned
by the atomic step, so the three mutations occur all-or-nothing. -/
theorem processRecurringTransaction_processes_due
    (db : DB) (txId userId : String) (now : Int) (newId : String) (tx : Transaction)
    (hid : ¬(txId = "" ∨ userId = ""))
    (hfind : db.transactions.find? (fun t => t.id == txId && t.userId == userId) = some tx)
    (hdue : isTransactionDue tx now = true) :
    (processRecurringTransaction db (some txId) (some userId) now newId).2 = .processed ∧
    (processRecurringTransaction db (some txId) (some userId) now newId).1.transactions.length
      = db.transactions.length + 1 ∧
    (∃ newTx,
      (processRecurringTransaction db (some txId) (some userId) now newId).1.transactions
        = (db.transactions.map fun t => if t.id == tx.id then advanceOriginal t now else t)
            ++ [newTx] ∧
      newTx.type = tx.type ∧ newTx.amount = tx.amount ∧ newTx.category = tx.category ∧
      newTx.accountId = tx.accountId ∧ newTx.userId = tx.userId ∧ newTx.date = now ∧
      newTx.isRecurring = false ∧ newTx.status = .COMPLETED) ∧
    (∀ t ∈ db.transactions, t.id = tx.id →
      ({ t with lastProcessed := some now,
                nextRecurringDate := some (calculateNextRecurringDate now t.recurringInterval) })
        ∈ (processRecurringTransaction db (some txId) (some userId) now newId).1.transactions) ∧
    (∀ a ∈ db.accounts,
      (a.id = tx.accountId →
        ({ a with balance := a.balance + (if tx.type = .INCOME then tx.amount else -tx.amount) })
          ∈ (processRecurringTransaction db (some txId) (some userId) now newId).1.accounts) ∧
      (a.id ≠ tx.accountId →
        a ∈ (processRecurringTransaction db (some txId) (some userId) now newId).1.accounts)) := by
  have hres : processRecurringTransaction db (some txId) (some userId) now newId =
      ({ transactions :=
          (db.transactions.map fun t =>
            if t.id == tx.id then advanceOriginal t now else t) ++ [occurrenceOf tx now newId]
         accounts :=
          db.accounts.map fun a =>
            if a.id == tx.accountId then { a with balance := a.balance + balanceChange tx }
            else a },
       .processed) := by
    simp only [processRecurringTransaction, if_neg hid, hfind, hdue, if_true]
  rw [hres]
  refine ⟨rfl, by simp, ⟨occurrenceOf tx now newId, rfl, rfl, rfl, rfl, rfl, rfl, rfl, rfl, rfl⟩,
    ?_, ?_⟩
  · intro t ht h
    apply List.mem_append_left
    have heq : (if t.id == tx.id then advanceOriginal t now else t) =
        { t with lastProcessed := some now,
                 nextRecurringDate := some (calculateNextRecurringDate now t.recurringInterval) } := by
      rw [if_pos (by simp [h])]
      rfl
    exact heq ▸ List.mem_map_of_mem _ ht
  · intro a ha
    constructor
    · intro h
      rw [← balanceChange_eq_signed]
      have heq : (if a.id == tx.accountId then
          { a with balance := a.balance + balanceChange tx } else a) =
          { a with balance := a.balance + balanceChange tx } := if_pos (by simp [h])
      exact heq ▸ List.mem_map_of_mem _ ha
    · intro h
      have heq : (if a.id == tx.accountId then
          { a with balance := a.balance + balanceChange tx } else a) = a := if_neg (by simp [h])
      exact heq ▸ List.mem_map_of_mem _ ha

theorem processRecurringTransaction_processes_due_witness :
    (processRecurringTransaction sampleDB (some "t1") (some "u1") sampleNow "t2").2
      = .processed :=
  (processRecurringTransaction_processes_due sampleDB "t1" "u1" sampleNow "t2" sampleTx
    (by decide) (by decide) (by decide)).1

/-- Claim C2: once a work item's first processing has stamped
`lastProcessed` and advanced `nextRecurringDate` past now, a second
delivery of the same item is a no-op success: the store is returned
unchanged (no second occurrence, no balance change, no further update of
the original).  The same holds when the referenced transaction no longer
exists. -/
theorem processRecurringTransaction_idempotent_noop
    (db : DB) (txId userId : String) (now : Int) (newId : String)
    (hid : ¬(txId = "" ∨ userId = ""))
    (h : db.transactions.find? (fun t => t.id == txId && t.userId == userId) = none ∨
      ∃ tx lp nd,
        db.transactions.find? (fun t => t.id == txId && t.userId == userId) = some tx ∧
        tx.lastProcessed = some lp ∧ tx.nextRecurringDate = some nd ∧ now < nd) :
    processRecurringTransaction db (some txId) (some userId) now newId = (db, .noop) := by
  rcases h with hnone | ⟨tx, lp, nd, hfind, hlp, hnd, hlt⟩
  · simp only [processRecurringTransaction, if_neg hid, hnone]
  · have hdue : isTransactionDue tx now = false := by
      simp only [isTransactionDue, hlp, hnd, Option.getD_some, decide_eq_false_iff_not, not_le]
      exact hlt
    simp only [processRecurringTransaction, if_neg hid, hfind, hdue, Bool.false_eq_true,
      if_false]

theorem processRecurringTransaction_idempotent_noop_witness :
    processRecurringTransaction processedDB (some "t1") (some "u1") sampleNow "t2"
      = (processedDB, .noop) :=
  processRecurringTransaction_idempotent_noop processedDB "t1" "u1" sampleNow "t2"
    (by decide)
    (Or.inr ⟨processedTx, sampleNow, JSDate.mkTime 2024 7 15 10 0, by decide, rfl, rfl,
      by decide⟩)

/-- Claim C3 counterexample: the recurrence calculator follows JS `Date`
overflow semantics.  From 2024-01-31, MONTHLY lands on 2024-03-02 — it
*does* overflow into March, not a valid end-of-February date — and from
2024-02-29, YEARLY lands on 2025-03-01, not 2025-02-28. -/
theorem calculateNextRecurringDate_overflow_cex :
    JSDate.civilFromDays (JSDate.day
      (calculateNextRecurringDate (JSDate.mkTime 2024 1 31 0 0) (some .MONTHLY)))
      = (2024, 3, 2) ∧
    JSDate.getMonth
      (calculateNextRecurringDate (JSDate.mkTime 2024 1 31 0 0) (some .MONTHLY)) ≠ 1 ∧
    JSDate.civilFromDays (JSDate.day
      (calculateNextRecurringDate (JSDate.mkTime 2024 2 29 0 0) (some .YEARLY)))
      = (2025, 3, 1) ∧
    calculateNextRecurringDate (JSDate.mkTime 2024 2 29 0 0) (some .YEARLY)
      ≠ JSDate.mkTime 2025 2 28 0 0 := by
  refine ⟨by decide, by decide, by decide, by decide⟩

/-- Claim C3 as amended: under the calculator's JS `Date` semantics,
(2024-01-31, MONTHLY) yields 2024-03-02 (overflow into March),
(2024-02-29, YEARLY) yields 2025-03-01, and the day-of-month is
preserved when it is valid in the target month, as at
(2024-01-15, MONTHLY) ↦ 2024-02-15. -/
theorem calculateNextRecurringDate_monthly_yearly_eval :
    JSDate.civilFromDays (JSDate.day
      (calculateNextRecurringDate (JSDate.mkTime 2024 1 31 0 0) (some .MONTHLY)))
      = (2024, 3, 2) ∧
    JSDate.civilFromDays (JSDate.day
      (calculateNextRecurringDate (JSDate.mkTime 2024 2 29 0 0) (some .YEARLY)))
      = (2025, 3, 1) ∧
    JSDate.civilFromDays (JSDate.day
      (calculateNextRecurringDate (JSDate.mkTime 2024 1 15 0 0) (some .MONTHLY)))
      = (2024, 2, 15) := by
  refine ⟨by decide, by decide, by decide⟩

/-- Claim C6 counterexample: an unrecognized (null) recurrence interval
is *not* fatal and is silently absorbed: the calculator returns the
input date unchanged, and the processor completes the whole mutation as
a success, rescheduling the original transaction to `now` itself. -/
theorem unrecognizedInterval_processed_cex :
    calculateNextRecurringDate sampleNow none = sampleNow ∧
    (processRecurringTransaction nullIntervalDB (some "t1") (some "u1") sampleNow "t2").2
      = .processed ∧
    ({ nullIntervalTx with lastProcessed := some sampleNow,
                           nextRecurringDate := some sampleNow })
      ∈ (processRecurringTransaction nullIntervalDB (some "t1") (some "u1") sampleNow
          "t2").1.transactions := by
  refine ⟨rfl, by decide, by decide⟩

/-- Claim C6 as amended: the recurrence calculator is pure and total,
and on an unrecognized interval tag it silently returns the input date
unchanged (the `switch` has no default case), rather than raising any
error. -/
theorem calculateNextRecurringDate_none_returns_input (d : Int) :
    calculateNextRecurringDate d none = d := rfl

/-- The evaluator returns one of exactly two results: alert sent with
the stamp updated, or nothing sent and the budget unchanged. -/
theorem checkBudgetStep_cases (b : Budget) (acct : Account)
    (txs : List Transaction) (now : Int) :
    checkBudgetStep b acct txs now
        = { alertSent := true, budget := { b with lastAlertSent := some now } } ∨
      checkBudgetStep b acct txs now = { alertSent := false, budget := b } := by
  unfold checkBudgetStep
  cases hc : decide (80 ≤ budgetPercentageUsed b acct txs now) &&
      (match b.lastAlertSent with
       | none => true
       | some la => isNewMonth la now) with
  | true => exact Or.inl (if_pos rfl)
  | false => exact Or.inr (if_neg (by simp))

/-- The evaluator's send condition, decomposed. -/
theorem checkBudgetStep_sent_iff (b : Budget) (acct : Account)
    (txs : List Transaction) (now : Int) :
    (checkBudgetStep b acct txs now).alertSent = true ↔
      (80 ≤ budgetPercentageUsed b acct txs now ∧
        (b.lastAlertSent = none ∨
          ∃ la, b.lastAlertSent = some la ∧
            (JSDate.getMonth la ≠ JSDate.getMonth now ∨
             JSDate.getFullYear la ≠ JSDate.getFullYear now))) := by
  unfold checkBudgetStep
  rcases hla : b.lastAlertSent with _ | la
  · by_cases hp : 80 ≤ budgetPercentageUsed b acct txs now
    · simp [hp]
    · simp [hp]
  · by_cases hp : 80 ≤ budgetPercentageUsed b acct txs now
    · by_cases h1 : JSDate.getMonth la = JSDate.getMonth now
      · by_cases h2 : JSDate.getFullYear la = JSDate.getFullYear now
        · simp [hp, h1, h2, isNewMonth]
        · simp [hp, h1, h2, isNewMonth]
      · simp [hp, h1, isNewMonth]
    · simp [hp]

theorem checkBudgetStep_sent_budget (b : Budget) (acct : Account)
    (txs : List Transaction) (now : Int)
    (h : (checkBudgetStep b acct txs now).alertSent = true) :
    (checkBudgetStep b acct txs now).budget = { b with lastAlertSent := some now } := by
  rcases checkBudgetStep_cases b acct txs now with hc | hc
  · rw [hc]
  · rw [hc] at h
    exact absurd h (by simp)

theorem checkBudgetStep_not_sent_budget (b : Budget) (acct : Account)
    (txs : List Transaction) (now : Int)
    (h : (checkBudgetStep b acct txs now).alertSent = false) :
    (checkBudgetStep b acct txs now).budget = b := by
  rcases checkBudgetStep_cases b acct txs now with hc | hc
  · rw [hc] at h
    exact absurd h (by simp)
  · rw [hc]

/-- Once `lastAlertSent` lies in the same calendar month as every
remaining run, the evaluator changes nothing and sends nothing. -/
theorem budgetFold_locked (acct : Account) (s : Int) :
    ∀ (runs : List (Int × List Transaction)) (b : Budget) (c : Nat),
      b.lastAlertSent = some s →
      (∀ r ∈ runs, JSDate.getMonth r.1 = JSDate.getMonth s ∧
        JSDate.getFullYear r.1 = JSDate.getFullYear s) →
      runs.foldl (budgetStepFold acct) (b, c) = (b, c) := by
  intro runs
  induction runs with
  | nil => intro b c _ _; rfl
  | cons r rs ih =>
      intro b c hs hm
      have hnew : isNewMonth s r.1 = false := by
        have h1 := (hm r (List.mem_cons_self r rs)).1
        have h2 := (hm r (List.mem_cons_self r rs)).2
        simp [isNewMonth, h1, h2]
      have hstep : budgetStepFold acct (b, c) r = (b, c) := by
        simp [budgetStepFold, checkBudgetStep, hs, hnew]
      rw [List.foldl_cons, hstep]
      exact ih b c hs (fun x hx => hm x (List.mem_cons_of_mem r hx))

/-- Over any sequence of runs all falling in one calendar month, at most
one alert is sent, whatever expenses each run sees. -/
theorem budgetFold_atMostOne (acct : Account) (M Y : Int) :
    ∀ (runs : List (Int × List Transaction)) (b : Budget),
      (∀ r ∈ runs, JSDate.getMonth r.1 = M ∧ JSDate.getFullYear r.1 = Y) →
      (runs.foldl (budgetStepFold acct) (b, 0)).2 ≤ 1 := by
  intro runs
  induction runs with
  | nil => intro b _; exact Nat.zero_le 1
  | cons r rs ih =>
      intro b hm
      rw [List.foldl_cons]
      cases hsent : (checkBudgetStep b acct r.2 r.1).alertSent with
      | true =>
          have hb := checkBudgetStep_sent_budget b acct r.2 r.1 hsent
          have hstep : budgetStepFold acct (b, 0) r
              = ({ b with lastAlertSent := some r.1 }, 1) := by
            simp [budgetStepFold, hsent, hb]
          rw [hstep]
          have hlock := budgetFold_locked acct r.1 rs { b with lastAlertSent := some r.1 } 1
            rfl
            (by
              intro x hx
              have hr := hm r (List.mem_cons_self r rs)
              have hx' := hm x (List.mem_cons_of_mem r hx)
              exact ⟨hx'.1.trans hr.1.symm, hx'.2.trans hr.2.symm⟩)
          rw [hlock]
      | false =>
          have hb := checkBudgetStep_not_sent_budget b acct r.2 r.1 hsent
          have hstep : budgetStepFold acct (b, 0) r = (b, 0) := by
            simp [budgetStepFold, hsent, hb]
          rw [hstep]
          exact ih b (fun x hx => hm x (List.mem_cons_of_mem r hx))

/-- Claim C4: the alert fires iff `percentageUsed ≥ 80` and
`lastAlertSent` is absent or lies in a different calendar month (or
year) than now; a fired alert stamps `lastAlertSent = now`; and across
any number of evaluator runs within one calendar month at most one alert
is sent, so with `lastAlertSent` in the current month no alert fires and
with it in the previous month exactly one fires. -/
theorem checkBudgetAlerts_dedup (b : Budget) (acct : Account)
    (txs : List Transaction) (now : Int) :
    ((checkBudgetStep b acct txs now).alertSent = true ↔
      (80 ≤ budgetPercentageUsed b acct txs now ∧
        (b.lastAlertSent = none ∨
          ∃ la, b.lastAlertSent = some la ∧
            (JSDate.getMonth la ≠ JSDate.getMonth now ∨
             JSDate.getFullYear la ≠ JSDate.getFullYear now)))) ∧
    ((checkBudgetStep b acct txs now).alertSent = true →
      (checkBudgetStep b acct txs now).budget.lastAlertSent = some now) ∧
    (∀ runs : List (Int × List Transaction),
      (∀ r ∈ runs, JSDate.getMonth r.1 = JSDate.getMonth now ∧
        JSDate.getFullYear r.1 = JSDate.getFullYear now) →
      (runBudgetChecks b acct ((now, txs) :: runs)).2 ≤ 1) := by
  refine ⟨checkBudgetStep_sent_iff b acct txs now, ?_, ?_⟩
  · intro h
    rw [checkBudgetStep_sent_budget b acct txs now h]
  · intro runs hm
    unfold runBudgetChecks
    apply budgetFold_atMostOne acct (JSDate.getMonth now) (JSDate.getFullYear now)
    intro x hx
    rcases List.mem_cons.mp hx with hx | hx
    · rw [hx]; exact ⟨rfl, rfl⟩
    · exact hm x hx

theorem checkBudgetAlerts_dedup_witness :
    (checkBudgetStep alertBudgetPrev sampleAccount alertTxs sampleNow).budget.lastAlertSent
      = some sampleNow ∧
    (runBudgetChecks alertBudgetPrev sampleAccount
      [(sampleNow, alertTxs), (JSDate.mkTime 2024 6 20 0 0, alertTxs)]).2 ≤ 1 := by
  have hexp : budgetTotalExpenses alertBudgetPrev sampleAccount alertTxs sampleNow = 85 := by
    unfold budgetTotalExpenses aggregateSumAmount
    rw [show List.filter (txMatches
      { userId := some alertBudgetPrev.userId, accountId := some sampleAccount.id,
        type := some .EXPENSE, dateGte := some (JSDate.setDate sampleNow 1),
        dateLte := none }) alertTxs = alertTxs from by decide]
    simp [alertTxs]
  have hp : 80 ≤ budgetPercentageUsed alertBudgetPrev sampleAccount alertTxs sampleNow := by
    unfold budgetPercentageUsed
    rw [hexp]
    norm_num [alertBudgetPrev]
  have hsent :
      (checkBudgetStep alertBudgetPrev sampleAccount alertTxs sampleNow).alertSent = true :=
    (checkBudgetAlerts_dedup alertBudgetPrev sampleAccount alertTxs sampleNow).1.mpr
      ⟨hp, Or.inr ⟨JSDate.mkTime 2024 5 10 0 0, rfl, Or.inl (by decide)⟩⟩
  exact ⟨(checkBudgetAlerts_dedup alertBudgetPrev sampleAccount alertTxs sampleNow).2.1 hsent,
    (checkBudgetAlerts_dedup alertBudgetPrev sampleAccount alertTxs sampleNow).2.2
      [(JSDate.mkTime 2024 6 20 0 0, alertTxs)] (by decide)⟩

/-- Claim C10: a transaction carrying `lastProcessed` but no
`nextRecurringDate` is judged due: the absent next date is defaulted to
`today`, which compares `≤ today`. -/
theorem isTransactionDue_absent_nextRecurringDate (t : Transaction) (lp today : Int) :
    isTransactionDue
      { t with lastProcessed := some lp, nextRecurringDate := none } today = true := by
  simp [isTransactionDue]

/-- Claim C5 counterexample: for a user with zero prior-month
transactions the totals are zero, but the category mapping is *not*
empty — it is the preset five-key zero mapping. -/
theorem monthlyReport_not_empty_mapping_cex :
    (generateReportForUser sampleUser [] sampleNow).stats.totalIncome = 0 ∧
    (generateReportForUser sampleUser [] sampleNow).stats.totalExpenses = 0 ∧
    (generateReportForUser sampleUser [] sampleNow).stats.byCategory ≠ [] ∧
    (generateReportForUser sampleUser [] sampleNow).stats.byCategory
      = [("housing", 0), ("groceries", 0), ("transportation", 0),
         ("entertainment", 0), ("utilities", 0)] := by
  refine ⟨by decide, by decide, by decide, by decide⟩

/-- Claim C5 as amended: a user with no transactions selected for the
prior month gets a report with zero income, zero expenses and the preset
category mapping (housing, groceries, transportation, entertainment,
utilities, each zero — not an empty mapping), and the insight-generation
collaborator is still invoked. -/
theorem getMonthlyStats_zero_transactions (user : User) (txs : List Transaction) (now : Int)
    (h : txs.filter (monthlySelection user.id (lastMonthOf now)) = []) :
    (generateReportForUser user txs now).stats.totalIncome = 0 ∧
    (generateReportForUser user txs now).stats.totalExpenses = 0 ∧
    (generateReportForUser user txs now).stats.byCategory
      = [("housing", 0), ("groceries", 0), ("transportation", 0),
         ("entertainment", 0), ("utilities", 0)] ∧
    (generateReportForUser user txs now).insightsRequested = true := by
  have hstats : getMonthlyStats user.id (lastMonthOf now) txs = initialMonthlyReportData := by
    unfold getMonthlyStats
    rw [h]
    rfl
  unfold generateReportForUser
  simp only [hstats]
  exact ⟨rfl, rfl, rfl, trivial⟩

theorem getMonthlyStats_zero_transactions_witness :
    (generateReportForUser sampleUser [] sampleNow).stats.totalIncome = 0 ∧
    (generateReportForUser sampleUser [] sampleNow).insightsRequested = true :=
  ⟨(getMonthlyStats_zero_transactions sampleUser [] sampleNow rfl).1,
   (getMonthlyStats_zero_transactions sampleUser [] sampleNow rfl).2.2.2⟩

/-- Claim C7 counterexample: with now = 2024-01-15 14:30, an expense of
10 on the default account dated 2024-01-01 09:00 lies inside the claimed
window (first calendar day of the month from the start of that day, up
to now), and a 5 expense dated 2024-02-20 lies outside it; the claimed
window total is 10, but the evaluator computes 5: its cutoff is the 1st
at 14:30 (time of day kept), and it applies no upper bound. -/
theorem budgetTotalExpenses_window_cex :
    c7TxEarly.userId = c7Budget.userId ∧ c7TxEarly.accountId = sampleAccount.id ∧
    c7TxEarly.type = .EXPENSE ∧
    JSDate.makeDay (JSDate.getFullYear c7Now) (JSDate.getMonth c7Now) 1 * JSDate.msPerDay
      ≤ c7TxEarly.date ∧
    c7TxEarly.date ≤ c7Now ∧
    c7Now < c7TxFuture.date ∧
    (([c7TxEarly, c7TxFuture].filter (fun t =>
        t.userId == c7Budget.userId && t.accountId == sampleAccount.id &&
        decide (t.type = TransactionType.EXPENSE) &&
        decide (JSDate.makeDay (JSDate.getFullYear c7Now) (JSDate.getMonth c7Now) 1
          * JSDate.msPerDay ≤ t.date) &&
        decide (t.date ≤ c7Now))).map Transaction.amount).sum = 10 ∧
    budgetTotalExpenses c7Budget sampleAccount [c7TxEarly, c7TxFuture] c7Now = 5 ∧
    (5 : ℚ) ≠ 10 := by
  refine ⟨by decide, by decide, by decide, by decide, by decide, by decide, ?_, ?_, by norm_num⟩
  · rw [show List.filter (fun t =>
        t.userId == c7Budget.userId && t.accountId == sampleAccount.id &&
        decide (t.type = TransactionType.EXPENSE) &&
        decide (JSDate.makeDay (JSDate.getFullYear c7Now) (JSDate.getMonth c7Now) 1
          * JSDate.msPerDay ≤ t.date) &&
        decide (t.date ≤ c7Now)) [c7TxEarly, c7TxFuture] = [c7TxEarly] from by decide]
    simp [c7TxEarly]
  · unfold budgetTotalExpenses aggregateSumAmount
    rw [show List.filter (txMatches
      { userId := some c7Budget.userId, accountId := some sampleAccount.id,
        type := some .EXPENSE, dateGte := some (JSDate.setDate c7Now 1),
        dateLte := none }) [c7TxEarly, c7TxFuture] = [c7TxFuture] from by decide]
    simp [c7TxFuture]

/-- Claim C7 as amended: the evaluator's expense total equals the sum of
the amounts of the user's EXPENSE transactions on the default account
dated at or after `setDate(now, 1)` — the first of the current month at
now's own time of day; no upper bound is applied, so first-of-month
transactions earlier in the day than "now" are excluded and future-dated
ones are included. -/
theorem budgetTotalExpenses_eq (b : Budget) (acct : Account)
    (txs : List Transaction) (now : Int) :
    budgetTotalExpenses b acct txs now
      = ((txs.filter (fun t =>
          t.userId == b.userId && t.accountId == acct.id &&
          decide (t.type = TransactionType.EXPENSE) &&
          decide (JSDate.setDate now 1 ≤ t.date))).map Transaction.amount).sum := by
  unfold budgetTotalExpenses aggregateSumAmount
  have hpred : List.filter (txMatches
      { userId := some b.userId, accountId := some acct.id,
        type := some TransactionType.EXPENSE, dateGte := some (JSDate.setDate now 1),
        dateLte := none }) txs
      = List.filter (fun t =>
          t.userId == b.userId && t.accountId == acct.id &&
          decide (t.type = TransactionType.EXPENSE) &&
          decide (JSDate.setDate now 1 ≤ t.date)) txs :=
    List.filter_congr (fun t _ => by simp [txMatches, Bool.and_true])
  rw [hpred]

/-- Claim C8 counterexample: the zod schema accepts a non-recurring form
that still carries a `recurringInterval`, and `createTransaction`
spreads it into the stored row, breaking the "present iff recurring"
invariant; likewise `updateTransaction` of a previously processed
recurring row to non-recurring keeps the stored `lastProcessed`. -/
theorem transactionInvariant_cex :
    transactionSchemaValid c8StaleIntervalForm = true ∧
    (createTransactionRecord c8StaleIntervalForm "u1" "t9").isRecurring = false ∧
    (createTransactionRecord c8StaleIntervalForm "u1" "t9").recurringInterval
      = some .DAILY ∧
    ¬ recurringInvariant (createTransactionRecord c8StaleIntervalForm "u1" "t9") ∧
    transactionSchemaValid c8PlainForm = true ∧
    (updateTransactionRecord processedTx c8PlainForm).isRecurring = false ∧
    (updateTransactionRecord processedTx c8PlainForm).lastProcessed = some sampleNow ∧
    ¬ recurringInvariant (updateTransactionRecord processedTx c8PlainForm) := by
  refine ⟨by decide, by decide, by decide, by decide, by decide, by decide, by decide,
    by decide⟩

/-- Claim C8 as amended: create/update set `nextRecurringDate` iff the
submitted form is recurring with an interval, `lastProcessed` is never
set by create and is preserved by update, and the stored
`recurringInterval` mirrors the submitted field whatever `isRecurring`
is; the documented invariant therefore holds for schema-valid recurring
forms, and for non-recurring forms only when no stale interval is
submitted and (for update) the original row carried no `lastProcessed`. -/
theorem createUpdate_recurring_fields (d : TransactionFormData) (userId newId : String)
    (orig : Transaction) :
    ((createTransactionRecord d userId newId).nextRecurringDate.isSome ↔
      d.isRecurring = true ∧ d.recurringInterval.isSome = true) ∧
    (createTransactionRecord d userId newId).recurringInterval = d.recurringInterval ∧
    (createTransactionRecord d userId newId).lastProcessed = none ∧
    ((updateTransactionRecord orig d).nextRecurringDate.isSome ↔
      d.isRecurring = true ∧ d.recurringInterval.isSome = true) ∧
    (updateTransactionRecord orig d).recurringInterval = d.recurringInterval ∧
    (updateTransactionRecord orig d).lastProcessed = orig.lastProcessed ∧
    (transactionSchemaValid d = true → d.isRecurring = true →
      recurringInvariant (createTransactionRecord d userId newId)) ∧
    (d.isRecurring = false → d.recurringInterval = none →
      recurringInvariant (createTransactionRecord d userId newId)) ∧
    (d.isRecurring = false → d.recurringInterval = none → orig.lastProcessed = none →
      recurringInvariant (updateTransactionRecord orig d)) := by
  refine ⟨?_, rfl, rfl, ?_, rfl, rfl, ?_, ?_, ?_⟩
  · cases hr : d.isRecurring <;> cases hi : d.recurringInterval <;>
      simp [createTransactionRecord, formNextRecurringDate, hr, hi]
  · cases hr : d.isRecurring <;> cases hi : d.recurringInterval <;>
      simp [updateTransactionRecord, formNextRecurringDate, hr, hi]
  · intro hv hr
    cases hi : d.recurringInterval with
    | none => simp [transactionSchemaValid, hr, hi] at hv
    | some i =>
        simp [recurringInvariant, createTransactionRecord, formNextRecurringDate, hr, hi]
  · intro hr hi
    simp [recurringInvariant, createTransactionRecord, formNextRecurringDate, hr, hi]
  · intro hr hi horig
    simp [recurringInvariant, updateTransactionRecord, formNextRecurringDate, hr, hi, horig]

theorem createUpdate_recurring_fields_witness :
    recurringInvariant (createTransactionRecord c8RecurringForm "u1" "t9") :=
  (createUpdate_recurring_fields c8RecurringForm "u1" "t9" sampleTx).2.2.2.2.2.2.1
    (by decide) (by decide)

/-- Any window of 60 seconds contains the start times of at most 10
items of one user under the batch schedule. -/
theorem throttleTimes_window_cap (n t : Nat) :
    ((throttleTimes processThrottleConfig n).filter
      (fun x => decide (t ≤ x) && decide (x < t + 60))).length ≤ 10 := by
  have hmap : throttleTimes processThrottleConfig n
      = (List.range n).map (fun k => k / 10 * 60) := rfl
  rw [hmap, List.filter_map, List.length_map]
  have hsub : ∀ x ∈ (List.range n).filter
      ((fun x => decide (t ≤ x) && decide (x < t + 60)) ∘ (fun k => k / 10 * 60)),
      x ∈ Finset.Ico (10 * ((t + 59) / 60)) (10 * ((t + 59) / 60) + 10) := by
    intro x hx
    rw [List.mem_filter] at hx
    have hp := hx.2
    simp only [Function.comp, Bool.and_eq_true, decide_eq_true_eq] at hp
    rw [Finset.mem_Ico]
    omega
  have hnd : ((List.range n).filter
      ((fun x => decide (t ≤ x) && decide (x < t + 60)) ∘ (fun k => k / 10 * 60))).Nodup :=
    (List.nodup_range n).filter _
  calc ((List.range n).filter
        ((fun x => decide (t ≤ x) && decide (x < t + 60)) ∘ (fun k => k / 10 * 60))).length
      = ((List.range n).filter
        ((fun x => decide (t ≤ x) && decide (x < t + 60)) ∘
          (fun k => k / 10 * 60))).toFinset.card := (List.toFinset_card_of_nodup hnd).symm
    _ ≤ (Finset.Ico (10 * ((t + 59) / 60)) (10 * ((t + 59) / 60) + 10)).card :=
        Finset.card_le_card (fun x hx => hsub x (List.mem_toFinset.mp hx))
    _ = 10 := by rw [Nat.card_Ico]; omega

/-- Claim C9: under the declared throttle (limit 10 per 60 seconds,
keyed by the owning user), a single user's schedule starts at most 10
items in any rolling 60-second window; every dispatched item receives a
start time (none dropped); and 15 items dispatched at once run as 10 in
the first window and 5 deferred to the next. -/
theorem processRecurringTransaction_throttle (n t : Nat) :
    processThrottleConfig.limit = 10 ∧ processThrottleConfig.periodSec = 60 ∧
    (throttleTimes processThrottleConfig n).length = n ∧
    ((throttleTimes processThrottleConfig n).filter
      (fun x => decide (t ≤ x) && decide (x < t + 60))).length ≤ 10 ∧
    throttleTimes processThrottleConfig 15
      = [0, 0, 0, 0, 0, 0, 0, 0, 0, 0, 60, 60, 60, 60, 60] :=
  ⟨rfl, rfl, by simp [throttleTimes], throttleTimes_window_cap n t, by decide⟩
